import Mathlib

/-!
Shallow embedding of the gitbot agent system: model factory, agents,
agent manager and the HTTP error layer, together with proofs of the
behavioral properties stated for them.
-/

namespace GitBot

/-- A chat message with a role and content, as stored in conversation history. -/
structure Message where
  role : String
  content : String
deriving DecidableEq

/-- Truthiness of an optional string, as Python evaluates `if s:` on `Optional[str]`. -/
def truthyStr : Option String → Bool
  | none => false
  | some s => !s.isEmpty

/-- Python `x or d` for an optional string: a falsy value (absent or empty) falls back to `d`. -/
def pyOrStr (x : Option String) (d : String) : String :=
  match x with
  | none => d
  | some s => if s.isEmpty then d else s

/-- Python `str.lower` (and `String.toLower`) on the ASCII names used here:
lowercase each character. -/
def lowerStr (s : String) : String := String.mk (s.data.map Char.toLower)

/-- Python `repr` of a list of strings, as used when a list is interpolated in an f-string. -/
def pyStrListRepr (xs : List String) : String :=
  "[" ++ String.intercalate ", " (xs.map (fun s => "\x27" ++ s ++ "\x27")) ++ "]"

/-- Lookup in an insertion-ordered string-keyed dictionary (Python `dict.get`). -/
def dictGet {α : Type} (k : String) (d : List (String × α)) : Option α :=
  match d.find? (fun p => p.1 == k) with
  | some p => some p.2
  | none => none

/-- Key membership in an insertion-ordered dictionary (Python `k in d`). -/
def dictHas {α : Type} (k : String) (d : List (String × α)) : Bool :=
  d.any (fun p => p.1 == k)

/-- Assignment `d[k] = v` on an insertion-ordered dictionary: an existing key keeps
its position and gets the new value, a fresh key is appended at the end. -/
def dictInsert {α : Type} (k : String) (v : α) (d : List (String × α)) : List (String × α) :=
  if dictHas k d then d.map (fun p => if p.1 == k then (k, v) else p)
  else d ++ [(k, v)]

/-- Configuration values loaded from the environment (`src/config.py`); the string
fields default to the empty string when the variable is unset. -/
structure Config where
  ANTHROPIC_API_KEY : String
  OPENAI_API_KEY : String
  GITHUB_TOKEN : String
  DEFAULT_MODEL : String
  MAX_TOKENS : Nat
  TEMPERATURE : ℚ
deriving DecidableEq

/-- `Config.get_api_key`: dictionary lookup of the provider, lowercased. -/
def Config.get_api_key (cfg : Config) (provider : String) : Option String :=
  dictGet (lowerStr provider)
    [("anthropic", cfg.ANTHROPIC_API_KEY), ("openai", cfg.OPENAI_API_KEY)]

/-- Constructed model adapter (`src/models/ai_models.py`): the concrete class together
with the configuration fixed at construction. -/
inductive ModelSpec where
  | claude (api_key model : String) (max_tokens : Nat) (temperature : ℚ)
  | openaiModel (api_key model : String) (max_tokens : Nat) (temperature : ℚ)
deriving DecidableEq

/-- `ModelFactory.create_model`: lowercases the provider, dispatches on it, and
substitutes a provider-specific default when the model identifier is falsy. -/
def create_model (provider api_key : String) (model : Option String)
    (max_tokens : Nat) (temperature : ℚ) : Except String ModelSpec :=
  let p := lowerStr provider
  if p == "anthropic" || p == "claude" then
    Except.ok (ModelSpec.claude api_key (pyOrStr model "claude-3-sonnet-20240229")
      max_tokens temperature)
  else if p == "openai" then
    Except.ok (ModelSpec.openaiModel api_key (pyOrStr model "gpt-4") max_tokens temperature)
  else
    Except.error ("Unsupported AI provider: " ++ p)

/-- A GitHub client handle, authenticated by a token (`src/github_integration`). -/
structure GitHubClient where
  token : String
deriving DecidableEq

/-- The kind of an agent: the three classes of `src/agents/base_agent.py`, or a
user-registered custom subclass identified by a tag. -/
inductive AgentType where
  | code_review
  | issue_triage
  | documentation
  | custom (tag : Nat)
deriving DecidableEq

/-- Whether the agent type is one of the three classes defined in the repository. -/
def AgentType.builtin : AgentType → Bool
  | custom _ => false
  | _ => true

/-- An agent instance: its class, its owned model adapter and GitHub client, and
its conversation history. -/
structure Agent where
  agentType : AgentType
  ai_model : ModelSpec
  github_client : GitHubClient
  conversation_history : List Message
deriving DecidableEq

/-- `Agent._create_default_model`: requires a truthy anthropic API key, then builds
the default Claude model from the configuration. -/
def _create_default_model (cfg : Config) : Except String ModelSpec :=
  match cfg.get_api_key "anthropic" with
  | none => Except.error "No API key configured for AI model"
  | some key =>
    if key.isEmpty then Except.error "No API key configured for AI model"
    else create_model "anthropic" key (some cfg.DEFAULT_MODEL) cfg.MAX_TOKENS cfg.TEMPERATURE

/-- `Agent._create_github_client`: requires a truthy GitHub token. -/
def _create_github_client (cfg : Config) : Except String GitHubClient :=
  if cfg.GITHUB_TOKEN.isEmpty then Except.error "GitHub token not configured"
  else Except.ok { token := cfg.GITHUB_TOKEN }

/-- `ai_model or self._create_default_model()`: a provided adapter is taken as
is, otherwise the default one is built (which can fail). -/
def pickModel (cfg : Config) (ai_model : Option ModelSpec) : Except String ModelSpec :=
  match ai_model with
  | some m => Except.ok m
  | none => _create_default_model cfg

/-- `github_client or self._create_github_client()`. -/
def pickClient (cfg : Config) (github_client : Option GitHubClient) :
    Except String GitHubClient :=
  match github_client with
  | some c => Except.ok c
  | none => _create_github_client cfg

/-- `Agent.__init__`: use the provided model and client when given, otherwise build
defaults from configuration (which can fail); history starts empty. -/
def Agent.init (cfg : Config) (t : AgentType) (ai_model : Option ModelSpec)
    (github_client : Option GitHubClient) : Except String Agent :=
  match pickModel cfg ai_model with
  | Except.error e => Except.error e
  | Except.ok m =>
    match pickClient cfg github_client with
    | Except.error e => Except.error e
    | Except.ok c =>
      Except.ok { agentType := t, ai_model := m, github_client := c,
                  conversation_history := [] }

/-- `get_system_prompt` of each agent class. A custom subclass supplies its own
prompt outside this repository; the empty string stands for it here. -/
def Agent.get_system_prompt (ag : Agent) : String :=
  match ag.agentType with
  | AgentType.code_review =>
    "You are an expert code reviewer. Your role is to:\n1. Analyze code changes for bugs, security issues, and best practices\n2. Provide constructive feedback with specific suggestions\n3. Consider performance, maintainability, and readability\n4. Be thorough but concise in your reviews\n5. Highlight both positive aspects and areas for improvement"
  | AgentType.issue_triage =>
    "You are an expert at triaging GitHub issues. Your role is to:\n1. Categorize issues by type (bug, feature, documentation, etc.)\n2. Assess priority and severity\n3. Suggest appropriate labels\n4. Identify duplicates or related issues\n5. Provide actionable next steps"
  | AgentType.documentation =>
    "You are an expert technical writer. Your role is to:\n1. Create clear, comprehensive documentation\n2. Explain complex concepts in simple terms\n3. Provide code examples where appropriate\n4. Maintain consistent formatting and style\n5. Ensure documentation is up-to-date with code changes"
  | AgentType.custom _ => ""

/-- Display name of each agent class (used by `to_dict`). -/
def Agent.name (ag : Agent) : String :=
  match ag.agentType with
  | AgentType.code_review => "Code Review Agent"
  | AgentType.issue_triage => "Issue Triage Agent"
  | AgentType.documentation => "Documentation Agent"
  | AgentType.custom _ => "Custom Agent"

/-- Description of each agent class (used by `to_dict`). -/
def Agent.description (ag : Agent) : String :=
  match ag.agentType with
  | AgentType.code_review => "Analyzes code changes and provides detailed reviews"
  | AgentType.issue_triage => "Triages and categorizes GitHub issues"
  | AgentType.documentation => "Generates and improves documentation"
  | AgentType.custom _ => "Custom Agent"

/-- `Agent.add_to_conversation`: append one role-tagged message to the history. -/
def Agent.add_to_conversation (ag : Agent) (role content : String) : Agent :=
  { ag with conversation_history :=
      ag.conversation_history ++ [{ role := role, content := content }] }

/-- An observable call made to the model adapter. -/
inductive ModelCall where
  | generate (prompt : String) (system_prompt : Option String)
  | chat (messages : List Message)
deriving DecidableEq

/-- Behavior of the model provider: for each call, the response text or a failure. -/
def ModelBehavior : Type := ModelCall → Except String String

/-- The single model-adapter call that `generate_response` issues: `chat` with the
replayed history when history use is requested and the history is nonempty,
otherwise `generate` with the class system prompt. -/
def Agent.modelCallFor (ag : Agent) (prompt : String) (use_history : Bool) : ModelCall :=
  if use_history && !ag.conversation_history.isEmpty then
    ModelCall.chat (ag.conversation_history ++ [{ role := "user", content := prompt }])
  else
    ModelCall.generate prompt (some ag.get_system_prompt)

/-- `Agent.generate_response`: issue the one model call; on success append the user
prompt then the assistant reply to the history, on failure leave the agent as is.
Returns the calls made, the outcome, and the agent afterwards. -/
def Agent.generate_response (m : ModelBehavior) (ag : Agent) (prompt : String)
    (use_history : Bool) : List ModelCall × Except String String × Agent :=
  match m (ag.modelCallFor prompt use_history) with
  | Except.error e => ([ag.modelCallFor prompt use_history], Except.error e, ag)
  | Except.ok response =>
      ([ag.modelCallFor prompt use_history], Except.ok response,
        (ag.add_to_conversation "user" prompt).add_to_conversation "assistant" response)

/-- A pull request record as returned by the GitHub API. -/
structure PullRequest where
  title : String
  body : Option String
  changed_files : Nat
  additions : Nat
  deletions : Nat
deriving DecidableEq

/-- An issue record as returned by the GitHub API. -/
structure Issue where
  title : String
  body : Option String
  labels : List String
  state : String
deriving DecidableEq

/-- An observable call made to the repository client. -/
inductive GitHubCall where
  | get_repository (repo_name : String)
  | get_pull (repo_name : String) (number : Nat)
  | get_issue (repo_name : String) (number : Nat)
deriving DecidableEq

/-- Behavior of the hosting platform: for each fetch, the record or a failure. -/
structure GitHubBehavior where
  get_repository : String → Except String Unit
  get_pull : String → Nat → Except String PullRequest
  get_issue : String → Nat → Except String Issue

/-- `AgentContext`: the execution context built by the caller. -/
structure AgentContext where
  repository : Option String
  issue_number : Option Nat
  pr_number : Option Nat
  metadata : List (String × String)
deriving DecidableEq

/-- The Python guard `if context.pr_number and context.repository:` — yields the
pair when both are truthy (present, nonzero, nonempty), else nothing. -/
def ctxPR? (ctx : AgentContext) : Option (Nat × String) :=
  match ctx.pr_number with
  | none => none
  | some n =>
    match ctx.repository with
    | none => none
    | some r => if n != 0 && !r.isEmpty then some (n, r) else none

/-- The Python guard `if context.issue_number and context.repository:`. -/
def ctxIssue? (ctx : AgentContext) : Option (Nat × String) :=
  match ctx.issue_number with
  | none => none
  | some n =>
    match ctx.repository with
    | none => none
    | some r => if n != 0 && !r.isEmpty then some (n, r) else none

/-- Outcome of one `execute` call: the repository-client calls made, the
model-adapter calls made, the result, and the agent afterwards. -/
structure ExecResult where
  ghCalls : List GitHubCall
  modelCalls : List ModelCall
  response : Except String String
  agent : Agent

/-- The terminal `return self.generate_response(prompt, use_history)` of an
execute path, packaged with the repository calls that path already made. -/
def runGen (m : ModelBehavior) (ag : Agent) (ghCalls : List GitHubCall)
    (prompt : String) (use_history : Bool) : ExecResult :=
  let out := ag.generate_response m prompt use_history
  { ghCalls := ghCalls, modelCalls := out.1, response := out.2.1, agent := out.2.2 }

/-- The review prompt rendered by `CodeReviewAgent.execute` from a fetched PR. -/
def reviewPrompt (pr : PullRequest) (user_input : String) : String :=
  "Please review the following pull request:\n\nTitle: " ++ pr.title ++
  "\nDescription: " ++ pyOrStr pr.body "No description provided" ++
  "\n\nFiles changed: " ++ toString pr.changed_files ++
  "\nAdditions: +" ++ toString pr.additions ++
  "\nDeletions: -" ++ toString pr.deletions ++
  "\n\nAdditional context: " ++ user_input ++
  "\n\nProvide a comprehensive code review."

/-- The triage prompt rendered by `IssueTriageAgent.execute` from a fetched issue. -/
def triagePrompt (issue : Issue) : String :=
  "Please triage the following GitHub issue:\n\nTitle: " ++ issue.title ++
  "\nBody: " ++ pyOrStr issue.body "No description provided" ++
  "\nLabels: " ++ pyStrListRepr issue.labels ++
  "\nState: " ++ issue.state ++
  "\n\nProvide triage analysis including category, priority, suggested labels, and next steps."

/-- `CodeReviewAgent.execute`: with a truthy PR number and repository, fetch the
repository and PR and review them; otherwise review the raw input text. -/
def CodeReviewAgent.execute (gh : GitHubBehavior) (m : ModelBehavior) (ag : Agent)
    (ctx : AgentContext) (user_input : String) : ExecResult :=
  match ctxPR? ctx with
  | some (n, r) =>
    match gh.get_repository r with
    | Except.error e =>
      { ghCalls := [GitHubCall.get_repository r], modelCalls := [],
        response := Except.error e, agent := ag }
    | Except.ok _ =>
      match gh.get_pull r n with
      | Except.error e =>
        { ghCalls := [GitHubCall.get_repository r, GitHubCall.get_pull r n],
          modelCalls := [], response := Except.error e, agent := ag }
      | Except.ok pr =>
        runGen m ag [GitHubCall.get_repository r, GitHubCall.get_pull r n]
          (reviewPrompt pr user_input) false
  | none => runGen m ag [] ("Review this code:\n\n" ++ user_input) false

/-- `IssueTriageAgent.execute`: with a truthy issue number and repository, fetch
the repository and issue and triage them; otherwise triage the raw input text. -/
def IssueTriageAgent.execute (gh : GitHubBehavior) (m : ModelBehavior) (ag : Agent)
    (ctx : AgentContext) (user_input : String) : ExecResult :=
  match ctxIssue? ctx with
  | some (n, r) =>
    match gh.get_repository r with
    | Except.error e =>
      { ghCalls := [GitHubCall.get_repository r], modelCalls := [],
        response := Except.error e, agent := ag }
    | Except.ok _ =>
      match gh.get_issue r n with
      | Except.error e =>
        { ghCalls := [GitHubCall.get_repository r, GitHubCall.get_issue r n],
          modelCalls := [], response := Except.error e, agent := ag }
      | Except.ok issue =>
        runGen m ag [GitHubCall.get_repository r, GitHubCall.get_issue r n]
          (triagePrompt issue) false
  | none => runGen m ag [] ("Triage this issue:\n\n" ++ user_input) false

/-- `DocumentationAgent.execute`: always documents the raw input text. -/
def DocumentationAgent.execute (m : ModelBehavior) (ag : Agent)
    (user_input : String) : ExecResult :=
  runGen m ag [] ("Generate documentation for:\n\n" ++ user_input) false

/-- Dispatch of `execute` on the agent class. A custom subclass defines its own
body outside this repository; here it is an unimplemented abstract method. -/
def Agent.execute (gh : GitHubBehavior) (m : ModelBehavior) (ag : Agent)
    (ctx : AgentContext) (user_input : String) : ExecResult :=
  match ag.agentType with
  | AgentType.code_review => CodeReviewAgent.execute gh m ag ctx user_input
  | AgentType.issue_triage => IssueTriageAgent.execute gh m ag ctx user_input
  | AgentType.documentation => DocumentationAgent.execute m ag user_input
  | AgentType.custom _ =>
    { ghCalls := [], modelCalls := [],
      response := Except.error "abstract method not implemented", agent := ag }

/-- The agent manager (`src/agents/agent_manager.py`): the registry of live agents
and the type-name-to-class table. -/
structure AgentManager where
  agents : List (String × Agent)
  agent_types : List (String × AgentType)

/-- `AgentManager.__init__`: empty registry, three built-in types. -/
def AgentManager.new : AgentManager :=
  { agents := [],
    agent_types := [("code_review", AgentType.code_review),
                    ("issue_triage", AgentType.issue_triage),
                    ("documentation", AgentType.documentation)] }

/-- `AgentManager.create_agent`: unknown type is an error; otherwise the id
defaults to the type name, the agent is constructed (which can fail on missing
configuration) and stored in the registry. The manager after the call is
returned alongside the outcome. -/
def AgentManager.create_agent (mgr : AgentManager) (cfg : Config) (agent_type : String)
    (agent_id : Option String) (ai_model : Option ModelSpec)
    (github_client : Option GitHubClient) : Except String Agent × AgentManager :=
  match dictGet agent_type mgr.agent_types with
  | none =>
    (Except.error ("Unknown agent type: " ++ agent_type ++ ". Available: " ++
       pyStrListRepr (mgr.agent_types.map (fun p => p.1))), mgr)
  | some t =>
    let id := pyOrStr agent_id agent_type
    match Agent.init cfg t ai_model github_client with
    | Except.error e => (Except.error e, mgr)
    | Except.ok ag => (Except.ok ag, { mgr with agents := dictInsert id ag mgr.agents })

/-- `AgentManager.get_agent`. -/
def AgentManager.get_agent (mgr : AgentManager) (agent_id : String) : Option Agent :=
  dictGet agent_id mgr.agents

/-- `AgentManager.remove_agent`. -/
def AgentManager.remove_agent (mgr : AgentManager) (agent_id : String) :
    Bool × AgentManager :=
  if dictHas agent_id mgr.agents then
    (true, { mgr with agents := mgr.agents.filter (fun p => !(p.1 == agent_id)) })
  else (false, mgr)

/-- `AgentManager.register_agent_type`: dictionary assignment into the type table. -/
def AgentManager.register_agent_type (mgr : AgentManager) (type_name : String)
    (agent_class : AgentType) : AgentManager :=
  { mgr with agent_types := dictInsert type_name agent_class mgr.agent_types }

/-- `AgentManager.get_available_agent_types`: the keys of the type table. -/
def AgentManager.get_available_agent_types (mgr : AgentManager) : List String :=
  mgr.agent_types.map (fun p => p.1)

/-- Outcome of `AgentManager.execute_agent`, seen from the manager. -/
structure ManagerExecResult where
  ghCalls : List GitHubCall
  modelCalls : List ModelCall
  response : Except String String

/-- `AgentManager.execute_agent`: a missing id is an error before any call is
made; otherwise delegate to the agent and keep its updated state. -/
def AgentManager.execute_agent (mgr : AgentManager) (gh : GitHubBehavior)
    (m : ModelBehavior) (agent_id : String) (ctx : AgentContext)
    (user_input : String) : ManagerExecResult × AgentManager :=
  match mgr.get_agent agent_id with
  | none =>
    ({ ghCalls := [], modelCalls := [],
       response := Except.error ("Agent not found: " ++ agent_id) }, mgr)
  | some ag =>
    let r := ag.execute gh m ctx user_input
    ({ ghCalls := r.ghCalls, modelCalls := r.modelCalls, response := r.response },
     { mgr with agents := dictInsert agent_id r.agent mgr.agents })

/-- Body of an HTTP response from the Flask layer (`src/server/api.py`). -/
inductive ApiBody where
  | errorJson (message : String)
  | agentDict (agentName agentDescription : String) (conversation_length : Nat)
  | messageJson (message : String)
  | createdJson (message agentName agentDescription : String) (conversation_length : Nat)
  | executeJson (response : String) (repository : Option String)
deriving DecidableEq

/-- Whether the body is a JSON error payload (`{"error": ...}`). -/
def ApiBody.isError : ApiBody → Bool
  | errorJson _ => true
  | _ => false

/-- An HTTP response: status code and JSON body. -/
structure HttpResponse where
  status : Nat
  body : ApiBody
deriving DecidableEq

/-- JSON body of `POST /agents`. -/
structure CreateRequest where
  type : Option String
  id : Option String
deriving DecidableEq

/-- JSON body of `POST /agents/{id}/execute`. -/
structure ExecuteRequest where
  input : Option String
  repository : Option String
  issue_number : Option Nat
  pr_number : Option Nat
  metadata : List (String × String)
deriving DecidableEq

/-- Handler of `GET /agents/{id}`: 404 with an error payload when absent,
otherwise the agent dictionary. -/
def api_get_agent (mgr : AgentManager) (agent_id : String) : HttpResponse :=
  match mgr.get_agent agent_id with
  | none => { status := 404, body := ApiBody.errorJson "Agent not found" }
  | some ag =>
    { status := 200,
      body := ApiBody.agentDict ag.name ag.description ag.conversation_history.length }

/-- Handler of `DELETE /agents/{id}`: 404 with an error payload when absent. -/
def api_delete_agent (mgr : AgentManager) (agent_id : String) :
    HttpResponse × AgentManager :=
  match mgr.remove_agent agent_id with
  | (false, mgr2) => ({ status := 404, body := ApiBody.errorJson "Agent not found" }, mgr2)
  | (true, mgr2) =>
    ({ status := 200, body := ApiBody.messageJson "Agent deleted successfully" }, mgr2)

/-- Handler of `POST /agents`: 400 when the type field is falsy, 201 on success,
and 500 for any exception escaping `create_agent`. -/
def api_create_agent (mgr : AgentManager) (cfg : Config) (data : CreateRequest) :
    HttpResponse × AgentManager :=
  if truthyStr data.type then
    match mgr.create_agent cfg (pyOrStr data.type "") data.id none none with
    | (Except.error e, mgr2) => ({ status := 500, body := ApiBody.errorJson e }, mgr2)
    | (Except.ok ag, mgr2) =>
      ({ status := 201,
         body := ApiBody.createdJson "Agent created successfully" ag.name
           ag.description ag.conversation_history.length }, mgr2)
  else ({ status := 400, body := ApiBody.errorJson "Agent type is required" }, mgr)

/-- Handler of `POST /agents/{id}/execute`: builds the context, delegates to the
manager, and maps any exception — including the not-found error — to 500. -/
def api_execute_agent (mgr : AgentManager) (gh : GitHubBehavior) (m : ModelBehavior)
    (agent_id : String) (data : ExecuteRequest) : HttpResponse × AgentManager :=
  let user_input := data.input.getD ""
  let ctx : AgentContext :=
    { repository := data.repository, issue_number := data.issue_number,
      pr_number := data.pr_number, metadata := data.metadata }
  match mgr.execute_agent gh m agent_id ctx user_input with
  | (r, mgr2) =>
    match r.response with
    | Except.error e => ({ status := 500, body := ApiBody.errorJson e }, mgr2)
    | Except.ok resp =>
      ({ status := 200, body := ApiBody.executeJson resp ctx.repository }, mgr2)

theorem dictHas_eq_isSome {α : Type} (k : String) (d : List (String × α)) :
    dictHas k d = (d.find? (fun p => p.1 == k)).isSome := by
  induction d with
  | nil => rfl
  | cons a d ih =>
    cases h : (a.1 == k) with
    | true => simp [dictHas, List.any_cons, List.find?, h]
    | false =>
      simp only [dictHas, List.any_cons, List.find?, h, Bool.false_or]
      exact ih

theorem find?_map_replace {α : Type} (k : String) (v : α) (d : List (String × α))
    (h : dictHas k d = true) :
    (d.map (fun p => if p.1 == k then (k, v) else p)).find? (fun p => p.1 == k) =
      some (k, v) := by
  induction d with
  | nil => simp [dictHas] at h
  | cons a d ih =>
    cases ha : (a.1 == k) with
    | true => simp [List.find?, ha]
    | false =>
      have h2 : dictHas k d = true := by
        simpa [dictHas, List.any_cons, ha] using h
      simpa [List.find?, ha] using ih h2

theorem find?_append_fresh {α : Type} (k : String) (v : α) (d : List (String × α))
    (h : dictHas k d = false) :
    (d ++ [(k, v)]).find? (fun p => p.1 == k) = some (k, v) := by
  induction d with
  | nil => simp [List.find?]
  | cons a d ih =>
    cases ha : (a.1 == k) with
    | true => simp [dictHas, List.any_cons, ha] at h
    | false =>
      have h2 : dictHas k d = false := by
        simpa [dictHas, List.any_cons, ha] using h
      simpa [List.find?, ha] using ih h2

theorem dictGet_insert_self {α : Type} (k : String) (v : α) (d : List (String × α)) :
    dictGet k (dictInsert k v d) = some v := by
  unfold dictGet dictInsert
  cases hh : dictHas k d with
  | true => simp only [hh, if_true, find?_map_replace k v d hh]
  | false => simp only [hh, Bool.false_eq_true, if_false, find?_append_fresh k v d hh]

theorem dictInsert_length_of_has {α : Type} (k : String) (v : α)
    (d : List (String × α)) (h : dictHas k d = true) :
    (dictInsert k v d).length = d.length := by
  simp [dictInsert, h]

theorem dictHas_of_get_some {α : Type} (k : String) (d : List (String × α)) (a : α)
    (h : dictGet k d = some a) : dictHas k d = true := by
  rw [dictHas_eq_isSome]
  unfold dictGet at h
  cases hf : d.find? (fun p => p.1 == k) with
  | none => rw [hf] at h; cases h
  | some p => simp

theorem dictHas_eq_false_of_get_none {α : Type} (k : String) (d : List (String × α))
    (h : dictGet k d = none) : dictHas k d = false := by
  rw [dictHas_eq_isSome]
  unfold dictGet at h
  cases hf : d.find? (fun p => p.1 == k) with
  | none => simp
  | some p => rw [hf] at h; cases h

theorem mem_keys_of_get_some {α : Type} (k : String) (d : List (String × α)) (a : α)
    (h : dictGet k d = some a) : k ∈ d.map (fun p => p.1) := by
  unfold dictGet at h
  cases hf : d.find? (fun p => p.1 == k) with
  | none => rw [hf] at h; cases h
  | some p =>
    have hm : p ∈ d := List.mem_of_find?_eq_some hf
    have hp := List.find?_some hf
    have heq : p.1 = k := by simpa using hp
    exact List.mem_map.mpr ⟨p, hm, heq⟩

/-- The history contract of one execute call: on success the history grows by
exactly the user prompt then the assistant reply, appended at the end; on
failure the agent is exactly as before. -/
def HistoryContract (ag : Agent) (r : ExecResult) : Prop :=
  (∀ s, r.response = Except.ok s →
     ∃ p, r.agent.conversation_history =
       ag.conversation_history ++
         [{ role := "user", content := p }, { role := "assistant", content := s }]) ∧
  (∀ e, r.response = Except.error e → r.agent = ag)

theorem historyContract_error (ag : Agent) (ghs : List GitHubCall)
    (mcs : List ModelCall) (e : String) :
    HistoryContract ag
      { ghCalls := ghs, modelCalls := mcs, response := Except.error e, agent := ag } := by
  constructor
  · intro s hs; cases hs
  · intro e2 _; rfl

theorem historyContract_runGen (m : ModelBehavior) (ag : Agent)
    (ghs : List GitHubCall) (prompt : String) (uh : Bool) :
    HistoryContract ag (runGen m ag ghs prompt uh) := by
  unfold runGen Agent.generate_response
  cases hm : m (ag.modelCallFor prompt uh) with
  | error e =>
    constructor
    · intro s hs; cases hs
    · intro e2 _; rfl
  | ok response =>
    constructor
    · intro s hs
      have hsr : response = s := by cases hs; rfl
      subst hsr
      exact ⟨prompt, by simp [Agent.add_to_conversation]⟩
    · intro e2 he; cases he

/-- A concrete Claude model configuration for tests. -/
def modelSpecTest : ModelSpec :=
  ModelSpec.claude "key" "claude-3-sonnet-20240229" 4096 (7 / 10)

/-- A second, distinct model configuration for tests. -/
def modelSpecTest2 : ModelSpec := ModelSpec.openaiModel "key2" "gpt-4" 4096 (7 / 10)

/-- A concrete GitHub client for tests. -/
def clientTest : GitHubClient := { token := "tok" }

/-- A model behavior that always succeeds with a fixed reply. -/
def mTest : ModelBehavior := fun _ => Except.ok "model response"

/-- A model behavior that always fails. -/
def mFailTest : ModelBehavior := fun _ => Except.error "model failure"

/-- A GitHub behavior on which every fetch fails. -/
def ghEmpty : GitHubBehavior :=
  { get_repository := fun _ => Except.error "not found",
    get_pull := fun _ _ => Except.error "not found",
    get_issue := fun _ _ => Except.error "not found" }

/-- The pull request of the code-review scenario: title "Fix bug", empty body,
3 changed files, 10 additions, 2 deletions. -/
def prTest : PullRequest :=
  { title := "Fix bug", body := none, changed_files := 3, additions := 10, deletions := 2 }

/-- A GitHub behavior that returns `prTest` for every pull-request fetch. -/
def ghPRTest : GitHubBehavior :=
  { get_repository := fun _ => Except.ok (),
    get_pull := fun _ _ => Except.ok prTest,
    get_issue := fun _ _ => Except.error "not found" }

/-- A documentation agent with empty history, for tests. -/
def agDocTest : Agent :=
  { agentType := AgentType.documentation, ai_model := modelSpecTest,
    github_client := clientTest, conversation_history := [] }

/-- An issue-triage agent with empty history, for tests. -/
def agTriageTest : Agent :=
  { agentType := AgentType.issue_triage, ai_model := modelSpecTest,
    github_client := clientTest, conversation_history := [] }

/-- A code-review agent with empty history, for tests. -/
def agReviewTest : Agent :=
  { agentType := AgentType.code_review, ai_model := modelSpecTest,
    github_client := clientTest, conversation_history := [] }

/-- An empty execution context. -/
def ctxEmpty : AgentContext :=
  { repository := none, issue_number := none, pr_number := none, metadata := [] }

/-- The context of the code-review scenario: repository "o/r", PR number 7. -/
def ctxPRTest : AgentContext :=
  { repository := some "o/r", issue_number := none, pr_number := some 7, metadata := [] }

/-- A configuration with all keys present. -/
def cfgTest : Config :=
  { ANTHROPIC_API_KEY := "key", OPENAI_API_KEY := "", GITHUB_TOKEN := "tok",
    DEFAULT_MODEL := "claude-3-sonnet-20240229", MAX_TOKENS := 4096,
    TEMPERATURE := 7 / 10 }

/-- A configuration with no keys at all. -/
def cfgEmpty : Config :=
  { ANTHROPIC_API_KEY := "", OPENAI_API_KEY := "", GITHUB_TOKEN := "",
    DEFAULT_MODEL := "claude-3-sonnet-20240229", MAX_TOKENS := 4096,
    TEMPERATURE := 7 / 10 }

/-- The code-review agent created by the first implicit-id create below. -/
def agW1 : Agent :=
  { agentType := AgentType.code_review, ai_model := modelSpecTest,
    github_client := clientTest, conversation_history := [] }

/-- The code-review agent created by the second implicit-id create below. -/
def agW2 : Agent :=
  { agentType := AgentType.code_review, ai_model := modelSpecTest2,
    github_client := clientTest, conversation_history := [] }

/-- Manager after one implicit-id create of code_review. -/
def mgrW1 : AgentManager :=
  (AgentManager.new.create_agent cfgTest "code_review" none (some modelSpecTest)
    (some clientTest)).2

/-- Manager after a second implicit-id create of code_review. -/
def mgrW2 : AgentManager :=
  (mgrW1.create_agent cfgTest "code_review" none (some modelSpecTest2)
    (some clientTest)).2

/-- A concrete execute request with only an input field. -/
def reqExecTest : ExecuteRequest :=
  { input := some "hi", repository := none, issue_number := none,
    pr_number := none, metadata := [] }

theorem generate_response_calls (m : ModelBehavior) (ag : Agent) (prompt : String)
    (uh : Bool) :
    (ag.generate_response m prompt uh).1 = [ag.modelCallFor prompt uh] := by
  unfold Agent.generate_response
  cases m (ag.modelCallFor prompt uh) <;> rfl

theorem runGen_modelCalls (m : ModelBehavior) (ag : Agent) (ghs : List GitHubCall)
    (prompt : String) (uh : Bool) :
    (runGen m ag ghs prompt uh).modelCalls = [ag.modelCallFor prompt uh] :=
  generate_response_calls m ag prompt uh

theorem runGen_ghCalls (m : ModelBehavior) (ag : Agent) (ghs : List GitHubCall)
    (prompt : String) (uh : Bool) :
    (runGen m ag ghs prompt uh).ghCalls = ghs := rfl

/-- C1: for every agent of one of the repository's classes and every execute call,
a successful model call appends exactly two entries at the end of the conversation
history — first the user prompt, then the assistant reply — leaving the existing
entries untouched; a failed call leaves the agent (hence its history) unchanged. -/
theorem execute_history_contract (gh : GitHubBehavior) (m : ModelBehavior)
    (ag : Agent) (ctx : AgentContext) (user_input : String)
    (hb : ag.agentType.builtin = true) :
    HistoryContract ag (ag.execute gh m ctx user_input) := by
  obtain ⟨t, ms, c, hist⟩ := ag
  cases t with
  | custom tag => cases hb
  | code_review =>
    show HistoryContract _ (CodeReviewAgent.execute gh m _ ctx user_input)
    unfold CodeReviewAgent.execute
    split
    · split
      · exact historyContract_error _ _ _ _
      · split
        · exact historyContract_error _ _ _ _
        · exact historyContract_runGen _ _ _ _ _
    · exact historyContract_runGen _ _ _ _ _
  | issue_triage =>
    show HistoryContract _ (IssueTriageAgent.execute gh m _ ctx user_input)
    unfold IssueTriageAgent.execute
    split
    · split
      · exact historyContract_error _ _ _ _
      · split
        · exact historyContract_error _ _ _ _
        · exact historyContract_runGen _ _ _ _ _
    · exact historyContract_runGen _ _ _ _ _
  | documentation =>
    exact historyContract_runGen _ _ _ _ _

/-- Witness for C1 at a concrete successful execution. -/
theorem execute_history_contract_witness :
    HistoryContract agDocTest (agDocTest.execute ghEmpty mTest ctxEmpty "hello") :=
  execute_history_contract ghEmpty mTest agDocTest ctxEmpty "hello" rfl

/-- C10: when history use is requested on an empty history, `generate_response`
issues exactly one `generate` call carrying the class system prompt (never
`chat`); a `chat` call occurs only when history use is requested and the
history is nonempty. -/
theorem generate_response_call_shape (m : ModelBehavior) (ag : Agent)
    (prompt : String) (use_history : Bool) :
    (ag.conversation_history = [] → use_history = true →
      (ag.generate_response m prompt use_history).1 =
        [ModelCall.generate prompt (some ag.get_system_prompt)]) ∧
    (∀ msgs, ModelCall.chat msgs ∈ (ag.generate_response m prompt use_history).1 →
      use_history = true ∧ ag.conversation_history ≠ []) := by
  constructor
  · intro he hu
    subst hu
    rw [generate_response_calls]
    simp [Agent.modelCallFor, he]
  · intro msgs hmem
    rw [generate_response_calls] at hmem
    have h1 : ModelCall.chat msgs = ag.modelCallFor prompt use_history := by
      simpa using hmem
    unfold Agent.modelCallFor at h1
    cases hc : (use_history && !ag.conversation_history.isEmpty) with
    | false => simp [hc] at h1
    | true =>
      rw [Bool.and_eq_true] at hc
      refine ⟨hc.1, ?_⟩
      intro hnil
      rw [hnil] at hc
      simp at hc

/-- Witness for C10 at a concrete agent with empty history. -/
theorem generate_response_call_shape_witness :
    (agDocTest.generate_response mTest "hi" true).1 =
      [ModelCall.generate "hi" (some agDocTest.get_system_prompt)] :=
  (generate_response_call_shape mTest agDocTest "hi" true).1 rfl rfl

/-- C4: `execute_agent` on an id absent from the registry fails with the
not-found error, makes no repository-client call and no model-adapter call,
and leaves the manager unchanged. -/
theorem execute_agent_not_found (mgr : AgentManager) (gh : GitHubBehavior)
    (m : ModelBehavior) (agent_id : String) (ctx : AgentContext)
    (user_input : String) (h : mgr.get_agent agent_id = none) :
    (mgr.execute_agent gh m agent_id ctx user_input).1.response =
        Except.error ("Agent not found: " ++ agent_id) ∧
    (mgr.execute_agent gh m agent_id ctx user_input).1.ghCalls = [] ∧
    (mgr.execute_agent gh m agent_id ctx user_input).1.modelCalls = [] ∧
    (mgr.execute_agent gh m agent_id ctx user_input).2 = mgr := by
  simp [AgentManager.execute_agent, h]

/-- Witness for C4 on the fresh manager and a concrete id. -/
theorem execute_agent_not_found_witness :
    (AgentManager.new.execute_agent ghEmpty mTest "ghost" ctxEmpty "hi").1.response =
        Except.error ("Agent not found: " ++ "ghost") ∧
    (AgentManager.new.execute_agent ghEmpty mTest "ghost" ctxEmpty "hi").1.ghCalls = [] ∧
    (AgentManager.new.execute_agent ghEmpty mTest "ghost" ctxEmpty "hi").1.modelCalls = [] ∧
    (AgentManager.new.execute_agent ghEmpty mTest "ghost" ctxEmpty "hi").2 =
      AgentManager.new :=
  execute_agent_not_found AgentManager.new ghEmpty mTest "ghost" ctxEmpty "hi" rfl

/-- C7: an issue-triage agent executed with no issue number set never calls the
repository client, and the single model call carries exactly the prompt
"Triage this issue:\n\n" followed by the unmodified user input. -/
theorem issue_triage_fallback (gh : GitHubBehavior) (m : ModelBehavior) (ag : Agent)
    (ctx : AgentContext) (user_input : String)
    (hty : ag.agentType = AgentType.issue_triage) (hno : ctx.issue_number = none) :
    (ag.execute gh m ctx user_input).ghCalls = [] ∧
    (ag.execute gh m ctx user_input).modelCalls =
      [ModelCall.generate ("Triage this issue:\n\n" ++ user_input)
        (some ag.get_system_prompt)] := by
  have hC : ctxIssue? ctx = none := by unfold ctxIssue?; rw [hno]
  obtain ⟨t, ms, c, hist⟩ := ag
  have ht : t = AgentType.issue_triage := hty
  subst ht
  have he : Agent.execute gh m
      { agentType := AgentType.issue_triage, ai_model := ms, github_client := c,
        conversation_history := hist } ctx user_input =
      runGen m
        { agentType := AgentType.issue_triage, ai_model := ms, github_client := c,
          conversation_history := hist }
        [] ("Triage this issue:\n\n" ++ user_input) false := by
    show IssueTriageAgent.execute gh m _ ctx user_input = _
    unfold IssueTriageAgent.execute
    rw [hC]
  rw [he, runGen_ghCalls, runGen_modelCalls]
  exact ⟨rfl, rfl⟩

/-- Witness for C7 at a concrete triage agent and empty context. -/
theorem issue_triage_fallback_witness :
    (agTriageTest.execute ghEmpty mTest ctxEmpty "broken").ghCalls = [] ∧
    (agTriageTest.execute ghEmpty mTest ctxEmpty "broken").modelCalls =
      [ModelCall.generate ("Triage this issue:\n\n" ++ "broken")
        (some agTriageTest.get_system_prompt)] :=
  issue_triage_fallback ghEmpty mTest agTriageTest ctxEmpty "broken" rfl rfl

theorem create_agent_registered_fst (cfg : Config) (mgr : AgentManager)
    (t : String) (ty : AgentType) (ms : ModelSpec) (c : GitHubClient)
    (hty : dictGet t mgr.agent_types = some ty) :
    (mgr.create_agent cfg t none (some ms) (some c)).1 =
      Except.ok { agentType := ty, ai_model := ms, github_client := c,
                  conversation_history := [] } := by
  unfold AgentManager.create_agent
  rw [hty]
  rfl

theorem create_agent_registered_snd (cfg : Config) (mgr : AgentManager)
    (t : String) (ty : AgentType) (ms : ModelSpec) (c : GitHubClient)
    (hty : dictGet t mgr.agent_types = some ty) :
    (mgr.create_agent cfg t none (some ms) (some c)).2 =
      { mgr with
        agents := dictInsert t
          { agentType := ty, ai_model := ms, github_client := c,
            conversation_history := [] } mgr.agents } := by
  unfold AgentManager.create_agent
  rw [hty]
  rfl

/-- C2: creating an agent of a registered type with no explicit id stores it
under the type name itself, and a second implicit-id create of the same type
replaces that entry: `get_agent` on the type name then returns the new
instance, and the registry has not grown. -/
theorem create_agent_default_id_overwrites (cfg : Config) (mgr : AgentManager)
    (t : String) (m1 m2 : ModelSpec) (c : GitHubClient) (a1 a2 : Agent)
    (mgr1 mgr2 : AgentManager)
    (h1 : mgr.create_agent cfg t none (some m1) (some c) = (Except.ok a1, mgr1))
    (h2 : mgr1.create_agent cfg t none (some m2) (some c) = (Except.ok a2, mgr2)) :
    mgr1.get_agent t = some a1 ∧ mgr2.get_agent t = some a2 ∧
    a1.ai_model = m1 ∧ a2.ai_model = m2 ∧
    mgr2.agents.length = mgr1.agents.length := by
  cases hty : dictGet t mgr.agent_types with
  | none =>
    unfold AgentManager.create_agent at h1
    rw [hty] at h1
    simp at h1
  | some ty =>
    have e1 : (mgr.create_agent cfg t none (some m1) (some c)).1 = Except.ok a1 := by
      rw [h1]
    have e2 : (mgr.create_agent cfg t none (some m1) (some c)).2 = mgr1 := by
      rw [h1]
    rw [create_agent_registered_fst cfg mgr t ty m1 c hty] at e1
    injection e1 with e1
    rw [create_agent_registered_snd cfg mgr t ty m1 c hty] at e2
    have hty1 : dictGet t mgr1.agent_types = some ty := by
      rw [← e2]; exact hty
    have hg1 : mgr1.get_agent t = some a1 := by
      rw [← e2, ← e1]
      exact dictGet_insert_self t _ mgr.agents
    have f1 : (mgr1.create_agent cfg t none (some m2) (some c)).1 = Except.ok a2 := by
      rw [h2]
    have f2 : (mgr1.create_agent cfg t none (some m2) (some c)).2 = mgr2 := by
      rw [h2]
    rw [create_agent_registered_fst cfg mgr1 t ty m2 c hty1] at f1
    injection f1 with f1
    rw [create_agent_registered_snd cfg mgr1 t ty m2 c hty1] at f2
    have hg2 : mgr2.get_agent t = some a2 := by
      rw [← f2, ← f1]
      exact dictGet_insert_self t _ mgr1.agents
    refine ⟨hg1, hg2, ?_, ?_, ?_⟩
    · rw [← e1]
    · rw [← f1]
    · rw [← f2]
      exact dictInsert_length_of_has t _ _ (dictHas_of_get_some t _ _ hg1)

/-- Witness for C2: two implicit-id creations of code_review on the fresh manager. -/
theorem create_agent_default_id_overwrites_witness :
    mgrW1.get_agent "code_review" = some agW1 ∧
    mgrW2.get_agent "code_review" = some agW2 ∧
    agW1.ai_model = modelSpecTest ∧ agW2.ai_model = modelSpecTest2 ∧
    mgrW2.agents.length = mgrW1.agents.length :=
  create_agent_default_id_overwrites cfgTest AgentManager.new "code_review"
    modelSpecTest modelSpecTest2 clientTest agW1 agW2 mgrW1 mgrW2 rfl rfl

/-- C3: when `create_agent` fails — whether on an unknown type name or because
agent construction fails on a missing API key or missing GitHub token — the
returned manager is exactly the one passed in: nothing is registered. -/
theorem create_agent_failure_registry (cfg : Config) (mgr : AgentManager)
    (t : String) (id : Option String) (ms : Option ModelSpec)
    (c : Option GitHubClient) :
    (∀ e, (mgr.create_agent cfg t id ms c).1 = Except.error e →
       (mgr.create_agent cfg t id ms c).2 = mgr) ∧
    (dictGet t mgr.agent_types = none →
       (mgr.create_agent cfg t id ms c).1 =
         Except.error ("Unknown agent type: " ++ t ++ ". Available: " ++
           pyStrListRepr (mgr.agent_types.map (fun p => p.1)))) ∧
    (dictGet t mgr.agent_types ≠ none → ms = none → cfg.ANTHROPIC_API_KEY = "" →
       (mgr.create_agent cfg t id ms c).1 =
         Except.error "No API key configured for AI model") ∧
    (dictGet t mgr.agent_types ≠ none → ms ≠ none → c = none → cfg.GITHUB_TOKEN = "" →
       (mgr.create_agent cfg t id ms c).1 =
         Except.error "GitHub token not configured") := by
  refine ⟨?_, ?_, ?_, ?_⟩
  · intro e he
    cases hty : dictGet t mgr.agent_types with
    | none => simp [AgentManager.create_agent, hty]
    | some ty =>
      cases hi : Agent.init cfg ty ms c with
      | error e2 => simp [AgentManager.create_agent, hty, hi]
      | ok a => simp [AgentManager.create_agent, hty, hi] at he
  · intro hty
    simp [AgentManager.create_agent, hty]
  · intro hne hms hkey
    subst hms
    cases hty : dictGet t mgr.agent_types with
    | none => exact absurd hty hne
    | some ty =>
      have hga : cfg.get_api_key "anthropic" = some cfg.ANTHROPIC_API_KEY := rfl
      have hd : pickModel cfg none =
          Except.error "No API key configured for AI model" := by
        show _create_default_model cfg = _
        unfold _create_default_model
        rw [hga, hkey]
        rfl
      have hinit : Agent.init cfg ty none c =
          Except.error "No API key configured for AI model" := by
        unfold Agent.init
        rw [hd]
      simp [AgentManager.create_agent, hty, hinit]
  · intro hne hms hc htok
    subst hc
    obtain ⟨msp, hmsp⟩ := Option.ne_none_iff_exists.mp hms
    subst hmsp
    cases hty : dictGet t mgr.agent_types with
    | none => exact absurd hty hne
    | some ty =>
      have hp : pickModel cfg (some msp) = Except.ok msp := rfl
      have hd : pickClient cfg none = Except.error "GitHub token not configured" := by
        show _create_github_client cfg = _
        unfold _create_github_client
        rw [htok]
        rfl
      have hinit : Agent.init cfg ty (some msp) none =
          Except.error "GitHub token not configured" := by
        unfold Agent.init
        rw [hp, hd]
      simp [AgentManager.create_agent, hty, hinit]

/-- Witness for C3: an unknown type and a known type under an empty configuration,
both leaving the fresh manager unchanged. -/
theorem create_agent_failure_registry_witness :
    (AgentManager.new.create_agent cfgEmpty "translator" none none none).1 =
      Except.error ("Unknown agent type: " ++ "translator" ++ ". Available: " ++
        pyStrListRepr (AgentManager.new.agent_types.map (fun p => p.1))) ∧
    (AgentManager.new.create_agent cfgEmpty "translator" none none none).2 =
      AgentManager.new ∧
    (AgentManager.new.create_agent cfgEmpty "documentation" none none none).1 =
      Except.error "No API key configured for AI model" ∧
    (AgentManager.new.create_agent cfgEmpty "documentation" none none none).2 =
      AgentManager.new :=
  ⟨(create_agent_failure_registry cfgEmpty AgentManager.new "translator"
      none none none).2.1 rfl,
   (create_agent_failure_registry cfgEmpty AgentManager.new "translator"
      none none none).1 _
     ((create_agent_failure_registry cfgEmpty AgentManager.new "translator"
        none none none).2.1 rfl),
   (create_agent_failure_registry cfgEmpty AgentManager.new "documentation"
      none none none).2.2.1 (by decide) rfl rfl,
   (create_agent_failure_registry cfgEmpty AgentManager.new "documentation"
      none none none).1 _
     ((create_agent_failure_registry cfgEmpty AgentManager.new "documentation"
        none none none).2.2.1 (by decide) rfl rfl)⟩

/-- C9: after `register_agent_type` on name n with class cls, n appears in
`get_available_agent_types`, and `create_agent` with type n yields an agent of
the registered class. -/
theorem register_type_roundtrip (cfg : Config) (mgr : AgentManager) (n : String)
    (cls : AgentType) (ms : ModelSpec) (c : GitHubClient) :
    n ∈ (mgr.register_agent_type n cls).get_available_agent_types ∧
    ((mgr.register_agent_type n cls).create_agent cfg n none (some ms) (some c)).1 =
      Except.ok { agentType := cls, ai_model := ms, github_client := c,
                  conversation_history := [] } := by
  constructor
  · exact mem_keys_of_get_some n _ cls (dictGet_insert_self n cls mgr.agent_types)
  · have hty : dictGet n (mgr.register_agent_type n cls).agent_types = some cls :=
      dictGet_insert_self n cls mgr.agent_types
    rw [create_agent_registered_fst cfg _ n cls ms c hty]

/-- C6: the factory compares the provider case-insensitively — any string
lowercasing to anthropic or claude yields the Claude adapter, any string
lowercasing to openai yields the OpenAI adapter, an omitted (or falsy) model id
is replaced by the provider default, and every other provider fails with the
unsupported-provider error; nothing else is validated. -/
theorem create_model_provider_dispatch (provider api_key : String)
    (model : Option String) (max_tokens : Nat) (temperature : ℚ) :
    ((lowerStr provider = "anthropic" ∨ lowerStr provider = "claude") →
      create_model provider api_key model max_tokens temperature =
        Except.ok (ModelSpec.claude api_key
          (pyOrStr model "claude-3-sonnet-20240229") max_tokens temperature)) ∧
    (lowerStr provider = "openai" →
      create_model provider api_key model max_tokens temperature =
        Except.ok (ModelSpec.openaiModel api_key (pyOrStr model "gpt-4")
          max_tokens temperature)) ∧
    (lowerStr provider ≠ "anthropic" → lowerStr provider ≠ "claude" →
      lowerStr provider ≠ "openai" →
      create_model provider api_key model max_tokens temperature =
        Except.error ("Unsupported AI provider: " ++ lowerStr provider)) := by
  refine ⟨?_, ?_, ?_⟩
  · rintro (h | h) <;> simp [create_model, h]
  · intro h
    simp [create_model, h]
  · intro h1 h2 h3
    simp [create_model, h1, h2, h3]

/-- Witness for C6: mixed-case providers and an unsupported one. -/
theorem create_model_provider_dispatch_witness :
    create_model "AnThRoPiC" "k" none 4096 (7 / 10) =
      Except.ok (ModelSpec.claude "k" (pyOrStr none "claude-3-sonnet-20240229")
        4096 (7 / 10)) ∧
    create_model "OpenAI" "k" none 4096 (7 / 10) =
      Except.ok (ModelSpec.openaiModel "k" (pyOrStr none "gpt-4") 4096 (7 / 10)) ∧
    create_model "grok" "k" none 4096 (7 / 10) =
      Except.error ("Unsupported AI provider: " ++ lowerStr "grok") :=
  ⟨(create_model_provider_dispatch "AnThRoPiC" "k" none 4096 (7 / 10)).1
     (Or.inl (by decide)),
   (create_model_provider_dispatch "OpenAI" "k" none 4096 (7 / 10)).2.1 (by decide),
   (create_model_provider_dispatch "grok" "k" none 4096 (7 / 10)).2.2
     (by decide) (by decide) (by decide)⟩

/-- Whether the first character list starts the second. -/
def charsStart : List Char → List Char → Bool
  | [], _ => true
  | _ :: _, [] => false
  | a :: as, b :: bs => a == b && charsStart as bs

/-- Whether the first character list occurs contiguously in the second. -/
def charsInfix (pat : List Char) : List Char → Bool
  | [] => charsStart pat []
  | b :: bs => charsStart pat (b :: bs) || charsInfix pat bs

/-- Substring test: whether `pat` occurs contiguously inside `s`. -/
def strContains (s pat : String) : Bool := charsInfix pat.data s.data

/-- C8: in the code-review scenario (repository "o/r", PR 7, title "Fix bug",
empty body, 3 changed files, 10 additions, 2 deletions) the one rendered prompt
passed to the model adapter contains the required literal substrings, with
"No description provided" substituted for the empty body. -/
theorem code_review_prompt_contents :
    (agReviewTest.execute ghPRTest mTest ctxPRTest "please review").modelCalls.length
      = 1 ∧
    (agReviewTest.execute ghPRTest mTest ctxPRTest "please review").modelCalls.all
      (fun call =>
        match call with
        | ModelCall.generate p _ =>
          strContains p "Fix bug" && strContains p "Files changed: 3" &&
          strContains p "Additions: +10" && strContains p "Deletions: -2" &&
          strContains p "No description provided"
        | ModelCall.chat _ => false) = true := by
  decide

/-- C5 counterexample: POST /agents/ghost/execute with "ghost" absent from the
registry answers 500, not 404. -/
theorem api_execute_missing_agent_is_500 :
    (api_execute_agent AgentManager.new ghEmpty mTest "ghost"
       { input := some "hi", repository := none, issue_number := none,
         pr_number := none, metadata := [] }).1.status = 500 ∧
    ¬ ((api_execute_agent AgentManager.new ghEmpty mTest "ghost"
       { input := some "hi", repository := none, issue_number := none,
         pr_number := none, metadata := [] }).1.status = 404) := by
  decide

/-- C5 (amended): GET and DELETE on a missing agent answer 404 with a JSON error
payload; POST execute on a missing id answers 500 with a JSON error payload,
because the not-found error is caught by the blanket handler of that route; a
missing type field on create answers 400 with a JSON error payload. -/
theorem api_error_status_codes (mgr : AgentManager) (gh : GitHubBehavior)
    (m : ModelBehavior) (cfg : Config) (agent_id : String)
    (dataE : ExecuteRequest) (dataC : CreateRequest)
    (h : mgr.get_agent agent_id = none) :
    (api_get_agent mgr agent_id).status = 404 ∧
    (api_get_agent mgr agent_id).body.isError = true ∧
    (api_delete_agent mgr agent_id).1.status = 404 ∧
    (api_delete_agent mgr agent_id).1.body.isError = true ∧
    (api_execute_agent mgr gh m agent_id dataE).1.status = 500 ∧
    (api_execute_agent mgr gh m agent_id dataE).1.body.isError = true ∧
    (dataC.type = none →
      (api_create_agent mgr cfg dataC).1.status = 400 ∧
      (api_create_agent mgr cfg dataC).1.body.isError = true) := by
  have hd : dictHas agent_id mgr.agents = false :=
    dictHas_eq_false_of_get_none agent_id mgr.agents h
  refine ⟨?_, ?_, ?_, ?_, ?_, ?_, ?_⟩
  · simp [api_get_agent, h]
  · simp [api_get_agent, h, ApiBody.isError]
  · simp [api_delete_agent, AgentManager.remove_agent, hd]
  · simp [api_delete_agent, AgentManager.remove_agent, hd, ApiBody.isError]
  · simp [api_execute_agent, AgentManager.execute_agent, h]
  · simp [api_execute_agent, AgentManager.execute_agent, h, ApiBody.isError]
  · intro hc
    constructor
    · simp [api_create_agent, hc, truthyStr]
    · simp [api_create_agent, hc, truthyStr, ApiBody.isError]

/-- Witness for C5 (amended) on the fresh manager and concrete requests. -/
theorem api_error_status_codes_witness :
    (api_get_agent AgentManager.new "ghost").status = 404 ∧
    (api_get_agent AgentManager.new "ghost").body.isError = true ∧
    (api_delete_agent AgentManager.new "ghost").1.status = 404 ∧
    (api_delete_agent AgentManager.new "ghost").1.body.isError = true ∧
    (api_execute_agent AgentManager.new ghEmpty mTest "ghost" reqExecTest).1.status
      = 500 ∧
    (api_execute_agent AgentManager.new ghEmpty mTest "ghost"
      reqExecTest).1.body.isError = true ∧
    ((none : Option String) = none →
      (api_create_agent AgentManager.new cfgTest
        { type := none, id := none }).1.status = 400 ∧
      (api_create_agent AgentManager.new cfgTest
        { type := none, id := none }).1.body.isError = true) :=
  api_error_status_codes AgentManager.new ghEmpty mTest cfgTest "ghost"
    reqExecTest { type := none, id := none } rfl

end GitBot
